import Mathlib

/-!
Verification development for the scored-signal aggregation engine:
a shallow embedding of `src/analyzer/code_analyzer.py` (the
`AnalysisResult` aggregate and its `calculate_overall_score`),
`src/analyzer/report_generator.py` (`ReportGenerator.generate_summary`)
and `src/analyzer/gpt_analyzer.py` (the cached, rate-limited external
signal client), together with theorems settling the spec's claims.

Python floats are embedded as `ℚ` (the aggregation formula uses only
`+ * / max` on decimal literals), timestamps (`time.time()`) as `ℚ`,
Python's nonnegative configuration counters as `ℕ`, and `dict`s as
Lean structures.  Stateful methods become explicit state-passing
functions; the environment's contribution to one call (the current
clock value and the outcome of the external API call) is passed as an
argument.
-/

namespace ChronAnalyzer

/-- Embedding of `AnalysisResult.__init__` (code_analyzer.py lines 14-44):
the four base sub-scores, the market sub-score, and the issue /
recommendation lists.  `issues` entries are dicts of string/float values;
their contents are never inspected by the scoring code, so an issue is
embedded as an association list of string keys to string values. -/
structure AnalysisResult where
  code_quality_score : ℚ
  ai_framework_score : ℚ
  execution_score : ℚ
  security_score : ℚ
  market_value_score : ℚ
  issues : List (List (String × String))
  recommendations : List String
deriving DecidableEq, Repr

/-- The list comprehension shared by `calculate_overall_score` (lines 50-57)
and `generate_summary` (lines 21-28): the base sub-scores that are `> 0`,
in the source's order `ai_framework, code_quality, execution, security`. -/
def base_scores (r : AnalysisResult) : List ℚ :=
  [r.ai_framework_score, r.code_quality_score,
   r.execution_score, r.security_score].filter (fun score => 0 < score)

/-- Embedding of `AnalysisResult.calculate_overall_score`
(code_analyzer.py lines 46-87).  The body is pure arithmetic, so the
`try/except` wrapper (lines 48, 85-87) can never take its `except` arm;
it is omitted. -/
def calculate_overall_score (r : AnalysisResult) : ℚ :=
  let market_contribution := r.market_value_score * 0.3
  let base_score :=
    if ¬(base_scores r).isEmpty then
      let normalized_base := (base_scores r).sum / (base_scores r).length
      let b := normalized_base * 0.7
      if r.market_value_score ≥ 0.8 then max b (0.5 - market_contribution)
      else b
    else 0
  base_score + market_contribution

/-- Embedding of the `Report` dataclass (report_generator.py lines 5-10).
`detailed_scores` is a dict from label to raw sub-score, embedded as an
association list in insertion order. -/
structure Report where
  overall_score : ℚ
  detailed_scores : List (String × ℚ)
  issues : List (List (String × String))
  recommendations : List String
deriving DecidableEq, Repr

/-- The local `score_override` flag computed by `generate_summary`
(report_generator.py lines 32, 43-47): it is set to `True` exactly when
control reaches line 47, i.e. when the non-zero base-score list is
non-empty and `market_value_score >= 0.8`. -/
def score_override (r : AnalysisResult) : Bool :=
  ¬(base_scores r).isEmpty ∧ r.market_value_score ≥ 0.8

/-- Embedding of `ReportGenerator.generate_summary`
(report_generator.py lines 18-75).  The arithmetic on lines 20-53 is
translated independently of `calculate_overall_score`: the source
duplicates the formula at this second site, and the equality of the two
sites is proved, not assumed. -/
def generate_summary (r : AnalysisResult) : Report :=
  let market_contribution := r.market_value_score * 0.3
  let base_score :=
    if ¬(base_scores r).isEmpty then
      let normalized_base := (base_scores r).sum / (base_scores r).length
      let b := normalized_base * 0.7
      if r.market_value_score ≥ 0.8 then max b (0.5 - market_contribution)
      else b
    else 0
  let overall_score := base_score + market_contribution
  let detailed_scores :=
    [("AI Framework Integration", r.ai_framework_score),
     ("Code Quality", r.code_quality_score),
     ("Execution Performance", r.execution_score),
     ("Market Success", r.market_value_score),
     ("Code Originality", r.security_score)]
  let recommendations :=
    if score_override r then
      "NOTE: Project score was adjusted to minimum 5.0/10 due to high market success"
        :: r.recommendations
    else r.recommendations
  { overall_score := overall_score
    detailed_scores := detailed_scores
    issues := r.issues
    recommendations := recommendations }

/-- Embedding of the result dict built by `analyze_code_segment`
(gpt_analyzer.py lines 190-198) and by `_get_fallback_analysis`
(lines 222-230): five numeric sub-scores plus findings and
recommendations. -/
structure SignalRecord where
  ai_score : ℚ
  quality_score : ℚ
  originality_score : ℚ
  execution_score : ℚ
  market_value : ℚ
  findings : List String
  recommendations : List String
deriving DecidableEq, Repr

/-- Embedding of `GPTAnalyzer._get_fallback_analysis` (gpt_analyzer.py
lines 220-230).  The `if error_msg` test is Python string truthiness:
the empty string is falsy. -/
def get_fallback_analysis (error_msg : String) : SignalRecord :=
  { ai_score := 0.5
    quality_score := 0.5
    originality_score := 0.5
    execution_score := 0.5
    market_value := 0.5
    findings :=
      if error_msg = "" then ["No findings available"]
      else ["GPT analysis failed: " ++ error_msg]
    recommendations := ["Enable GPT analysis for enhanced results"] }

/-- Embedding of the result dict of `verify_ai_implementation`
(gpt_analyzer.py lines 245-251, 285-290, 309-315). -/
structure VerifyRecord where
  is_real_ai : Bool
  implementation_type : String
  confidence : ℚ
  evidence : List String
  suggestions : List String
deriving DecidableEq, Repr

/-- The rate-limited fallback of `verify_ai_implementation`
(gpt_analyzer.py lines 245-251). -/
def verify_rate_limit_fallback : VerifyRecord :=
  { is_real_ai := false
    implementation_type := "unknown"
    confidence := 0.0
    evidence := ["Rate limit reached"]
    suggestions := ["Try again later"] }

/-- The error fallback of `verify_ai_implementation`
(gpt_analyzer.py lines 309-315). -/
def verify_error_fallback (msg : String) : VerifyRecord :=
  { is_real_ai := false
    implementation_type := "unknown"
    confidence := 0.0
    evidence := ["Analysis failed: " ++ msg]
    suggestions := ["Enable GPT analysis for AI verification"] }

/-- Embedding of the result dict of `analyze_market_context`
(gpt_analyzer.py lines 346-353, 372-380).  The two free-form metrics
objects are dicts of string keys to integer counts. -/
structure MarketRecord where
  popularity_score : ℚ
  adoption_score : ℚ
  impact_score : ℚ
  popularity_metrics : List (String × ℤ)
  community_metrics : List (String × ℤ)
  market_context : String
  recommendations : List String
deriving DecidableEq, Repr

/-- The error fallback of `analyze_market_context`
(gpt_analyzer.py lines 372-380). -/
def market_error_fallback (msg : String) : MarketRecord :=
  { popularity_score := 0.5
    adoption_score := 0.5
    impact_score := 0.5
    popularity_metrics := []
    community_metrics := []
    market_context := "Analysis failed: " ++ msg
    recommendations := ["Enable GPT analysis for market research"] }

/-- Embedding of the result dict of `check_code_originality`
(gpt_analyzer.py lines 393-399, 433-438, 457-463). -/
structure OriginalityRecord where
  originality_score : ℚ
  is_likely_copied : Bool
  common_patterns : List String
  unique_elements : List String
  recommendations : List String
deriving DecidableEq, Repr

/-- The rate-limited fallback of `check_code_originality`
(gpt_analyzer.py lines 393-399). -/
def originality_rate_limit_fallback : OriginalityRecord :=
  { originality_score := 0.5
    is_likely_copied := false
    common_patterns := ["Rate limit reached"]
    unique_elements := []
    recommendations := ["Try again later"] }

/-- The error fallback of `check_code_originality`
(gpt_analyzer.py lines 457-463). -/
def originality_error_fallback : OriginalityRecord :=
  { originality_score := 0.5
    is_likely_copied := false
    common_patterns := []
    unique_elements := []
    recommendations := ["Enable GPT analysis for originality verification"] }

/-- Model of CPython's built-in `hash` on strings, as used on
gpt_analyzer.py lines 116, 256, 319, 404.  CPython computes a
SipHash-1-3 digest of the string's bytes keyed by a per-process random
seed (`PYTHONHASHSEED`); the embedding keeps exactly the structure the
claims depend on — a fixed deterministic function of the per-process
seed and of the full text of the (already concatenated) argument — and
replaces the SipHash mixing rounds by a simple polynomial mix.  No
theorem below relies on any property of the mixing itself. -/
def pyHash (seed : ℕ) (s : String) : ℕ :=
  s.data.foldl (fun a c => (a * 1000003 + c.toNat + 1) % 2 ^ 64) seed

/-- The cache key of `analyze_code_segment` (gpt_analyzer.py line 116):
`f"analyze_\x7bhash(code + context)\x7d"`. -/
def analyze_cache_key (seed : ℕ) (code context : String) : String :=
  "analyze_" ++ toString (pyHash seed (code ++ context))

/-- The cache key of `verify_ai_implementation` (gpt_analyzer.py
line 256). -/
def verify_cache_key (seed : ℕ) (code : String) : String :=
  "verify_" ++ toString (pyHash seed code)

/-- The cache key of `analyze_market_context` (gpt_analyzer.py
line 319). -/
def market_cache_key (seed : ℕ) (project_name repo_url : String) : String :=
  "market_" ++ toString (pyHash seed (project_name ++ repo_url))

/-- The cache key of `check_code_originality` (gpt_analyzer.py
line 404). -/
def originality_cache_key (seed : ℕ) (code : String) : String :=
  "originality_" ++ toString (pyHash seed code)

/-- The observable states of one cache file (`<cache_dir>/<key>.json`)
when it is opened and parsed (gpt_analyzer.py lines 125-130):
its JSON body parses (`valid`), `json.load` raises
`json.JSONDecodeError` (`corrupt`), or opening / decoding the file
raises some other `OSError`/`UnicodeDecodeError` (`unreadable`) —
only the second is caught by the `except json.JSONDecodeError` arm. -/
inductive CacheContent (α : Type) where
  | valid (r : α)
  | corrupt
  | unreadable
deriving DecidableEq, Repr

/-- One operation's slice of the cache directory: an association list
from file name (cache key) to the file's `st_mtime` and content.
A `put` prepends, so `List.lookup` sees the newest write; a key that is
absent models a file that does not exist.  The single on-disk directory
of gpt_analyzer.py is partitioned by the four disjoint key prefixes
(`analyze_`, `verify_`, `market_`, `originality_`), so it is embedded
as one store per operation. -/
def CacheStore (α : Type) : Type := List (String × (ℚ × CacheContent α))

instance (α : Type) [DecidableEq α] : DecidableEq (CacheStore α) := by
  unfold CacheStore
  infer_instance

/-- Embedding of the mutable fields of `GPTAnalyzer.__init__`
(gpt_analyzer.py lines 28-52) together with the durable cache
directory, plus the process's string-hash seed (CPython per-process
state that `hash` reads).  `max_calls` is `int(os.getenv('MAX_GPT_CALLS',
'5'))` — a nonnegative call budget — and `cache_ttl` is
`int(os.getenv('GPT_CACHE_TTL', str(24*3600)))`; `cache_enabled` is
whether `GPT_ANALYSIS_CACHE_PATH` was set (`self.cache_dir is not
None`). -/
structure GPTAnalyzerState where
  hash_seed : ℕ
  max_calls : ℕ
  calls_made : ℕ
  call_reset_time : ℚ
  cache_enabled : Bool
  cache_ttl : ℚ
  cacheA : CacheStore SignalRecord
  cacheV : CacheStore VerifyRecord
  cacheM : CacheStore MarketRecord
  cacheO : CacheStore OriginalityRecord
deriving DecidableEq

/-- The state `GPTAnalyzer.__init__` leaves behind (gpt_analyzer.py
lines 35-37, 44-52): counter 0, reset time one hour ahead, caches as
found on disk. -/
def initState (seed max_calls : ℕ) (now : ℚ) (cache_enabled : Bool) (ttl : ℚ)
    (cA : CacheStore SignalRecord) (cV : CacheStore VerifyRecord)
    (cM : CacheStore MarketRecord) (cO : CacheStore OriginalityRecord) :
    GPTAnalyzerState :=
  { hash_seed := seed
    max_calls := max_calls
    calls_made := 0
    call_reset_time := now + 3600
    cache_enabled := cache_enabled
    cache_ttl := ttl
    cacheA := cA
    cacheV := cV
    cacheM := cM
    cacheO := cO }

/-- The environment's contribution to one external call, collapsing the
API request and the response handling of the calling operation:
`success r` is a call whose response was parsed into the result `r`
(for `analyze_code_segment`, lines 176-198 with the field defaults
already applied; for the other operations a bare `json.loads`),
`jsonDecodeError` is the `except json.JSONDecodeError` arm of the
response parse (lines 199-201), `processError` the following
`except Exception` arm (lines 202-204), and `callError` an exception
raised by the API call itself (caught at lines 216-218 resp. the
operation's outer `except Exception`). -/
inductive ExtOutcome (α : Type) where
  | success (r : α)
  | jsonDecodeError (msg : String)
  | processError (msg : String)
  | callError (msg : String)
deriving DecidableEq, Repr

/-- What the cache-check prologue shared by all four operations sees for
a given key: `none` when caching is disabled, the file is missing, or
the entry is stale (all of which fall through to recomputation), and
otherwise the fresh file's content. -/
def cache_probe {α : Type} (enabled : Bool) (store : CacheStore α)
    (key : String) (now ttl : ℚ) : Option (CacheContent α) :=
  match (if enabled then store.lookup key else none) with
  | none => none
  | some (mtime, content) => if now - mtime < ttl then some content else none

/-- `put` side of the cache (gpt_analyzer.py lines 207-212 and the
analogous blocks of the other operations): write the result under the
key iff caching is enabled; the new file's mtime is the current time. -/
def cache_put {α : Type} (enabled : Bool) (store : CacheStore α)
    (key : String) (now : ℚ) (r : α) : CacheStore α :=
  if enabled then (key, (now, CacheContent.valid r)) :: store else store

/-- Rate-window reset prologue (gpt_analyzer.py lines 132-136, repeated
at 236-240 and 384-388): when the current time has reached the reset
time, zero the counter and move the reset time one hour ahead. -/
def reset_window (s : GPTAnalyzerState) (now : ℚ) : GPTAnalyzerState :=
  if now ≥ s.call_reset_time then
    { s with calls_made := 0, call_reset_time := now + 3600 }
  else s

/-- The body of `analyze_code_segment` after the cache check
(gpt_analyzer.py lines 132-218): window reset, admission check against
`next_count`, increment, external call, response handling, cache
write-back.  Returns the result record and the successor state. -/
def analyze_after_cache (s : GPTAnalyzerState) (now : ℚ) (cache_key : String)
    (ext : ExtOutcome SignalRecord) : SignalRecord × GPTAnalyzerState :=
  let s1 := reset_window s now
  let next_count := s1.calls_made + 1
  if next_count > s1.max_calls then
    (get_fallback_analysis "Rate limit reached", s1)
  else
    let s2 := { s1 with calls_made := next_count }
    match ext with
    | ExtOutcome.success r =>
        (r, { s2 with cacheA := cache_put s2.cache_enabled s2.cacheA cache_key now r })
    | ExtOutcome.jsonDecodeError msg =>
        (get_fallback_analysis ("JSON parse error: " ++ msg), s2)
    | ExtOutcome.processError msg => (get_fallback_analysis msg, s2)
    | ExtOutcome.callError msg => (get_fallback_analysis msg, s2)

/-- Embedding of `GPTAnalyzer.analyze_code_segment` (gpt_analyzer.py
lines 114-218).  The two `time.time()` reads (cache age at line 123 and
window check at line 133) happen within the same call and are modelled
by the single instant `now`.  The only uncaught exception is a fresh
cache file whose read fails with something other than
`json.JSONDecodeError`; it surfaces as `Except.error`. -/
def analyze_code_segment (s : GPTAnalyzerState) (now : ℚ) (code context : String)
    (ext : ExtOutcome SignalRecord) :
    Except String (SignalRecord × GPTAnalyzerState) :=
  let cache_key := analyze_cache_key s.hash_seed code context
  match cache_probe s.cache_enabled s.cacheA cache_key now s.cache_ttl with
  | some (CacheContent.valid r) => Except.ok (r, s)
  | some CacheContent.unreadable => Except.error "cache read failed"
  | some CacheContent.corrupt => Except.ok (analyze_after_cache s now cache_key ext)
  | none => Except.ok (analyze_after_cache s now cache_key ext)

/-- The body of `verify_ai_implementation` after its rate-limit and
cache prologues (gpt_analyzer.py lines 270-315): external call,
`json.loads`, cache write-back; every exception in this span is caught
by the outer `except Exception` and becomes the error fallback.  In
this operation (unlike `analyze_code_segment`) the response parse runs
inside that same outer handler, so all three non-success outcomes
collapse into the error fallback. -/
def verify_call (s : GPTAnalyzerState) (now : ℚ) (cache_key : String)
    (ext : ExtOutcome VerifyRecord) : VerifyRecord × GPTAnalyzerState :=
  match ext with
  | ExtOutcome.success r =>
      (r, { s with cacheV := cache_put s.cache_enabled s.cacheV cache_key now r })
  | ExtOutcome.jsonDecodeError msg => (verify_error_fallback msg, s)
  | ExtOutcome.processError msg => (verify_error_fallback msg, s)
  | ExtOutcome.callError msg => (verify_error_fallback msg, s)

/-- Embedding of `GPTAnalyzer.verify_ai_implementation` (gpt_analyzer.py
lines 234-315).  Note the source's order: window reset (236-240), then
admission check `calls_made >= max_calls` with the rate-limited
fallback (243-251), then the increment (254), and only then the cache
lookup (256-268) — a cache hit in this operation happens after a
rate-limit slot has already been consumed. -/
def verify_ai_implementation (s : GPTAnalyzerState) (now : ℚ) (code : String)
    (ext : ExtOutcome VerifyRecord) :
    Except String (VerifyRecord × GPTAnalyzerState) :=
  let s1 := reset_window s now
  if s1.calls_made ≥ s1.max_calls then
    Except.ok (verify_rate_limit_fallback, s1)
  else
    let s2 := { s1 with calls_made := s1.calls_made + 1 }
    let cache_key := verify_cache_key s.hash_seed code
    match cache_probe s2.cache_enabled s2.cacheV cache_key now s2.cache_ttl with
    | some (CacheContent.valid r) => Except.ok (r, s2)
    | some CacheContent.unreadable => Except.error "cache read failed"
    | some CacheContent.corrupt => Except.ok (verify_call s2 now cache_key ext)
    | none => Except.ok (verify_call s2 now cache_key ext)

/-- The body of `analyze_market_context` after the cache check
(gpt_analyzer.py lines 333-380): external call, `json.loads`, cache
write-back; every exception becomes the error fallback. -/
def market_call (s : GPTAnalyzerState) (now : ℚ) (cache_key : String)
    (ext : ExtOutcome MarketRecord) : MarketRecord × GPTAnalyzerState :=
  match ext with
  | ExtOutcome.success r =>
      (r, { s with cacheM := cache_put s.cache_enabled s.cacheM cache_key now r })
  | ExtOutcome.jsonDecodeError msg => (market_error_fallback msg, s)
  | ExtOutcome.processError msg => (market_error_fallback msg, s)
  | ExtOutcome.callError msg => (market_error_fallback msg, s)

/-- Embedding of `GPTAnalyzer.analyze_market_context` (gpt_analyzer.py
lines 317-380).  This operation has no rate-limit prologue at all:
neither `calls_made` nor `call_reset_time` is read or written anywhere
in its body (lines 317-380 never mention them). -/
def analyze_market_context (s : GPTAnalyzerState) (now : ℚ)
    (project_name repo_url : String) (ext : ExtOutcome MarketRecord) :
    Except String (MarketRecord × GPTAnalyzerState) :=
  let cache_key := market_cache_key s.hash_seed project_name repo_url
  match cache_probe s.cache_enabled s.cacheM cache_key now s.cache_ttl with
  | some (CacheContent.valid r) => Except.ok (r, s)
  | some CacheContent.unreadable => Except.error "cache read failed"
  | some CacheContent.corrupt => Except.ok (market_call s now cache_key ext)
  | none => Except.ok (market_call s now cache_key ext)

/-- The body of `check_code_originality` after its prologues
(gpt_analyzer.py lines 418-463). -/
def originality_call (s : GPTAnalyzerState) (now : ℚ) (cache_key : String)
    (ext : ExtOutcome OriginalityRecord) : OriginalityRecord × GPTAnalyzerState :=
  match ext with
  | ExtOutcome.success r =>
      (r, { s with cacheO := cache_put s.cache_enabled s.cacheO cache_key now r })
  | ExtOutcome.jsonDecodeError _ => (originality_error_fallback, s)
  | ExtOutcome.processError _ => (originality_error_fallback, s)
  | ExtOutcome.callError _ => (originality_error_fallback, s)

/-- Embedding of `GPTAnalyzer.check_code_originality` (gpt_analyzer.py
lines 382-463).  Same shape as `verify_ai_implementation`: window
reset, admission check `calls_made >= max_calls`, increment, and only
then the cache lookup. -/
def check_code_originality (s : GPTAnalyzerState) (now : ℚ) (code : String)
    (ext : ExtOutcome OriginalityRecord) :
    Except String (OriginalityRecord × GPTAnalyzerState) :=
  let s1 := reset_window s now
  if s1.calls_made ≥ s1.max_calls then
    Except.ok (originality_rate_limit_fallback, s1)
  else
    let s2 := { s1 with calls_made := s1.calls_made + 1 }
    let cache_key := originality_cache_key s.hash_seed code
    match cache_probe s2.cache_enabled s2.cacheO cache_key now s2.cache_ttl with
    | some (CacheContent.valid r) => Except.ok (r, s2)
    | some CacheContent.unreadable => Except.error "cache read failed"
    | some CacheContent.corrupt => Except.ok (originality_call s2 now cache_key ext)
    | none => Except.ok (originality_call s2 now cache_key ext)

/-! ## Helper lemmas -/

/-- The non-zero base-score list is non-empty iff some base sub-score is
strictly positive. -/
lemma base_scores_isEmpty_eq_false_iff (r : AnalysisResult) :
    (base_scores r).isEmpty = false ↔
      (0 < r.ai_framework_score ∨ 0 < r.code_quality_score ∨
       0 < r.execution_score ∨ 0 < r.security_score) := by
  by_cases h1 : 0 < r.ai_framework_score <;>
  by_cases h2 : 0 < r.code_quality_score <;>
  by_cases h3 : 0 < r.execution_score <;>
  by_cases h4 : 0 < r.security_score <;>
  simp [base_scores, h1, h2, h3, h4]

/-- All four base sub-scores zero ⇒ the non-zero base-score list is empty. -/
lemma base_scores_eq_nil_of_zero (r : AnalysisResult)
    (hai : r.ai_framework_score = 0) (hcq : r.code_quality_score = 0)
    (hex : r.execution_score = 0) (hsec : r.security_score = 0) :
    base_scores r = [] := by
  simp [base_scores, hai, hcq, hex, hsec]

/-- Unfolding of `calculate_overall_score` on the branch where some base
sub-score is positive and the market score clears the 0.8 threshold
(code_analyzer.py lines 63-74). -/
lemma calculate_overall_score_floor (r : AnalysisResult)
    (hne : (base_scores r).isEmpty = false) (hm : 0.8 ≤ r.market_value_score) :
    calculate_overall_score r =
      max ((base_scores r).sum / (base_scores r).length * 0.7)
        (0.5 - r.market_value_score * 0.3) + r.market_value_score * 0.3 := by
  simp [calculate_overall_score, hne, hm, ge_iff_le]

/-! ## Claims -/

/-- C1: for every `AnalysisResult` whose four base sub-scores lie in
[0,1] with at least one strictly positive and whose
`market_value_score` is in [0.8, 1], `calculate_overall_score` equals
`max(mean(positive base scores) × 0.7, 0.5 − market_value_score × 0.3)
 + market_value_score × 0.3`, and is therefore at least 0.5. -/
theorem C1_floor_guarantee (r : AnalysisResult)
    (hai0 : 0 ≤ r.ai_framework_score) (hai1 : r.ai_framework_score ≤ 1)
    (hcq0 : 0 ≤ r.code_quality_score) (hcq1 : r.code_quality_score ≤ 1)
    (hex0 : 0 ≤ r.execution_score) (hex1 : r.execution_score ≤ 1)
    (hsec0 : 0 ≤ r.security_score) (hsec1 : r.security_score ≤ 1)
    (hpos : 0 < r.ai_framework_score ∨ 0 < r.code_quality_score ∨
            0 < r.execution_score ∨ 0 < r.security_score)
    (hm0 : 0.8 ≤ r.market_value_score) (hm1 : r.market_value_score ≤ 1) :
    calculate_overall_score r =
      max ((base_scores r).sum / (base_scores r).length * 0.7)
        (0.5 - r.market_value_score * 0.3) + r.market_value_score * 0.3
    ∧ 0.5 ≤ calculate_overall_score r := by
  have hne := (base_scores_isEmpty_eq_false_iff r).mpr hpos
  have heq := calculate_overall_score_floor r hne hm0
  refine ⟨heq, ?_⟩
  rw [heq]
  have hmax := le_max_right ((base_scores r).sum / (base_scores r).length * 0.7)
    (0.5 - r.market_value_score * 0.3)
  linarith

/-- Concrete result for the C1 witness: one positive base sub-score and
a high market score. -/
def c1res : AnalysisResult :=
  { code_quality_score := 0.2
    ai_framework_score := 0
    execution_score := 0
    security_score := 0.4
    market_value_score := 0.85
    issues := []
    recommendations := [] }

/-- C1 witness: the floor guarantee evaluated at `c1res`. -/
theorem C1_floor_guarantee_witness : 0.5 ≤ calculate_overall_score c1res :=
  (C1_floor_guarantee c1res (by norm_num [c1res]) (by norm_num [c1res])
    (by norm_num [c1res]) (by norm_num [c1res]) (by norm_num [c1res])
    (by norm_num [c1res]) (by norm_num [c1res]) (by norm_num [c1res])
    (Or.inr (Or.inl (by norm_num [c1res]))) (by norm_num [c1res])
    (by norm_num [c1res])).2

/-- C2: for every `AnalysisResult` whose four base sub-scores are all 0
and whose `market_value_score = m` lies in [0,1], the overall score is
exactly `0.3 × m` at both computation sites, the floor is not applied
(even when `m ≥ 0.8`), and the report's override flag is false, so no
adjustment note is prepended. -/
theorem C2_zero_base (r : AnalysisResult)
    (hai : r.ai_framework_score = 0) (hcq : r.code_quality_score = 0)
    (hex : r.execution_score = 0) (hsec : r.security_score = 0)
    (hm0 : 0 ≤ r.market_value_score) (hm1 : r.market_value_score ≤ 1) :
    calculate_overall_score r = 0.3 * r.market_value_score
    ∧ (generate_summary r).overall_score = 0.3 * r.market_value_score
    ∧ score_override r = false
    ∧ (generate_summary r).recommendations = r.recommendations := by
  have hnil := base_scores_eq_nil_of_zero r hai hcq hex hsec
  refine ⟨?_, ?_, ?_, ?_⟩
  · simp [calculate_overall_score, hnil]
    ring
  · simp [generate_summary, score_override, hnil]
    ring
  · simp [score_override, hnil]
  · simp [generate_summary, score_override, hnil]

/-- Concrete result for the C2 witness: no base signal, a market score
of 0.9 (above the 0.8 threshold, yet no floor). -/
def c2res : AnalysisResult :=
  { code_quality_score := 0
    ai_framework_score := 0
    execution_score := 0
    security_score := 0
    market_value_score := 0.9
    issues := []
    recommendations := ["keep going"] }

/-- C2 witness: the zero-base case evaluated at `c2res` (note
`0.3 × 0.9 = 0.27 < 0.5` although the market score is above 0.8). -/
theorem C2_zero_base_witness :
    calculate_overall_score c2res = 0.3 * c2res.market_value_score
    ∧ (generate_summary c2res).overall_score = 0.3 * c2res.market_value_score
    ∧ score_override c2res = false
    ∧ (generate_summary c2res).recommendations = c2res.recommendations :=
  C2_zero_base c2res (by norm_num [c2res]) (by norm_num [c2res])
    (by norm_num [c2res]) (by norm_num [c2res]) (by norm_num [c2res])
    (by norm_num [c2res])

/-- Result on which the floor's max-clause changes nothing (mean of the
positive base scores is 0.9, so the base contribution 0.63 already
exceeds the floor 0.5 − 0.27 = 0.23), yet `generate_summary` raises its
override flag and prepends the adjustment note. -/
def boostedButUnchanged : AnalysisResult :=
  { code_quality_score := 0.9
    ai_framework_score := 0.9
    execution_score := 0.9
    security_score := 0.9
    market_value_score := 0.9
    issues := []
    recommendations := [] }

/-- C3 counterexample: the claim says the override flag is raised only
when the max-clause actually changed the base contribution; on
`boostedButUnchanged` the max-clause leaves the base contribution
unchanged, yet the flag is true and the note is prepended. -/
theorem C3_counterexample :
    score_override boostedButUnchanged = true
    ∧ (generate_summary boostedButUnchanged).recommendations
        = ["NOTE: Project score was adjusted to minimum 5.0/10 due to high market success"]
    ∧ max ((base_scores boostedButUnchanged).sum /
            (base_scores boostedButUnchanged).length * 0.7)
        (0.5 - boostedButUnchanged.market_value_score * 0.3)
      = (base_scores boostedButUnchanged).sum /
          (base_scores boostedButUnchanged).length * 0.7 := by
  have hmv : boostedButUnchanged.market_value_score = 0.9 := rfl
  have hrec : boostedButUnchanged.recommendations = [] := rfl
  have hbs : base_scores boostedButUnchanged = [0.9, 0.9, 0.9, 0.9] := by
    norm_num [base_scores, boostedButUnchanged]
  have hov : score_override boostedButUnchanged = true := by
    simp only [score_override, decide_eq_true_eq, ge_iff_le, hbs, hmv]
    norm_num
  refine ⟨hov, ?_, ?_⟩
  · simp [generate_summary, hov, hrec]
  · rw [max_eq_left]
    rw [hbs, hmv]
    norm_num

/-- C3 amended: the override flag is true iff at least one base
sub-score is positive and `market_value_score ≥ 0.8` (whether or not
the max-clause changed the base contribution), and the report prepends
the adjustment note as first recommendation exactly when the flag is
true, preserving the order of the remaining recommendations. -/
theorem C3_amended (r : AnalysisResult) :
    (score_override r = true ↔
      ((0 < r.ai_framework_score ∨ 0 < r.code_quality_score ∨
        0 < r.execution_score ∨ 0 < r.security_score)
       ∧ 0.8 ≤ r.market_value_score))
    ∧ (generate_summary r).recommendations =
        (if score_override r then
          ["NOTE: Project score was adjusted to minimum 5.0/10 due to high market success"]
         else []) ++ r.recommendations := by
  constructor
  · simp only [score_override, decide_eq_true_eq, ge_iff_le, Bool.not_eq_true,
      base_scores_isEmpty_eq_false_iff]
  · by_cases h : score_override r = true <;> simp [generate_summary, h]

/-- C4: the overall score placed in the report by `generate_summary`
coincides with `calculate_overall_score` on every `AnalysisResult` —
the duplicated formula at the report-projection site computes the same
value as the live-analysis site. -/
theorem C4_report_score_agreement (r : AnalysisResult) :
    (generate_summary r).overall_score = calculate_overall_score r := rfl

/-- `reset_window` never touches the configured maximum. -/
lemma reset_window_max (s : GPTAnalyzerState) (now : ℚ) :
    (reset_window s now).max_calls = s.max_calls := by
  unfold reset_window
  split <;> rfl

/-- `reset_window` preserves the counter invariant. -/
lemma reset_window_calls_le (s : GPTAnalyzerState) (now : ℚ)
    (h : s.calls_made ≤ s.max_calls) :
    (reset_window s now).calls_made ≤ (reset_window s now).max_calls := by
  unfold reset_window
  split <;> simp [h]

/-- When no reset is due, `reset_window` is the identity. -/
lemma reset_window_id (s : GPTAnalyzerState) (now : ℚ)
    (h : now < s.call_reset_time) : reset_window s now = s := by
  unfold reset_window
  rw [if_neg (not_le.mpr h)]

/-- The post-cache body of `analyze_code_segment` preserves the counter
invariant. -/
lemma analyze_after_cache_calls_le (s : GPTAnalyzerState) (now : ℚ)
    (key : String) (ext : ExtOutcome SignalRecord)
    (h : s.calls_made ≤ s.max_calls) :
    (analyze_after_cache s now key ext).2.calls_made ≤
      (analyze_after_cache s now key ext).2.max_calls := by
  have h1 := reset_window_calls_le s now h
  simp only [analyze_after_cache]
  split
  · exact h1
  · rename_i hadm
    rw [not_lt] at hadm
    cases ext <;> dsimp only <;> omega

/-- After a due reset, the post-cache body of `analyze_code_segment`
admits (given a positive budget) and ends with counter 1 and the reset
time one hour ahead. -/
lemma analyze_after_cache_reset (s : GPTAnalyzerState) (now : ℚ) (key : String)
    (ext : ExtOutcome SignalRecord) (hreset : s.call_reset_time ≤ now)
    (hbudget : 1 ≤ s.max_calls) :
    (analyze_after_cache s now key ext).2.calls_made = 1
    ∧ (analyze_after_cache s now key ext).2.call_reset_time = now + 3600 := by
  simp only [analyze_after_cache, reset_window, ge_iff_le, hreset, if_true]
  rw [if_neg (by omega)]
  cases ext <;> exact ⟨rfl, rfl⟩

/-- C5: the `analyze_code_segment` rate limiter.  (i) The counter
invariant `calls_made ≤ max_calls` is preserved by every call.
(ii) Inside a window (`now < call_reset_time`), once `calls_made` has
reached `max_calls`, a call that misses the cache returns the
rate-limited fallback and leaves the state — in particular the counter —
unchanged.  (iii) Once `now` reaches `call_reset_time`, the window is
reset before the admission check, and (given a positive budget) the
admitted call ends with `calls_made = 1` and the reset time one hour
ahead. -/
theorem C5_rate_limiter :
    (∀ (s : GPTAnalyzerState) (now : ℚ) (code context : String)
       (ext : ExtOutcome SignalRecord) (r : SignalRecord) (s' : GPTAnalyzerState),
       analyze_code_segment s now code context ext = Except.ok (r, s') →
       s.calls_made ≤ s.max_calls → s'.calls_made ≤ s'.max_calls)
    ∧ (∀ (s : GPTAnalyzerState) (now : ℚ) (code context : String)
       (ext : ExtOutcome SignalRecord),
       cache_probe s.cache_enabled s.cacheA
         (analyze_cache_key s.hash_seed code context) now s.cache_ttl = none →
       now < s.call_reset_time → s.calls_made = s.max_calls →
       analyze_code_segment s now code context ext =
         Except.ok (get_fallback_analysis "Rate limit reached", s))
    ∧ (∀ (s : GPTAnalyzerState) (now : ℚ) (code context : String)
       (ext : ExtOutcome SignalRecord),
       cache_probe s.cache_enabled s.cacheA
         (analyze_cache_key s.hash_seed code context) now s.cache_ttl = none →
       s.call_reset_time ≤ now → 1 ≤ s.max_calls →
       ∃ r s', analyze_code_segment s now code context ext = Except.ok (r, s')
         ∧ s'.calls_made = 1 ∧ s'.call_reset_time = now + 3600) := by
  refine ⟨?_, ?_, ?_⟩
  · intro s now code context ext r s' heq hle
    simp only [analyze_code_segment] at heq
    rcases hpr : cache_probe s.cache_enabled s.cacheA
        (analyze_cache_key s.hash_seed code context) now s.cache_ttl with _ | content
    · rw [hpr] at heq
      simp only [Except.ok.injEq, Prod.mk.injEq] at heq
      have := analyze_after_cache_calls_le s now
        (analyze_cache_key s.hash_seed code context) ext hle
      rw [heq] at this
      exact this
    · rw [hpr] at heq
      cases content with
      | valid rc =>
          simp only [Except.ok.injEq, Prod.mk.injEq] at heq
          rw [← heq.2]
          exact hle
      | corrupt =>
          simp only [Except.ok.injEq, Prod.mk.injEq] at heq
          have := analyze_after_cache_calls_le s now
            (analyze_cache_key s.hash_seed code context) ext hle
          rw [heq] at this
          exact this
      | unreadable => exact absurd heq (by simp)
  · intro s now code context ext hpr hwin hfull
    simp only [analyze_code_segment]
    rw [hpr]
    have : analyze_after_cache s now (analyze_cache_key s.hash_seed code context) ext
        = (get_fallback_analysis "Rate limit reached", s) := by
      simp only [analyze_after_cache]
      rw [reset_window_id s now hwin]
      rw [if_pos (by omega)]
    rw [this]
  · intro s now code context ext hpr hreset hbudget
    refine ⟨(analyze_after_cache s now (analyze_cache_key s.hash_seed code context) ext).1,
      (analyze_after_cache s now (analyze_cache_key s.hash_seed code context) ext).2,
      ?_, ?_⟩
    · simp only [analyze_code_segment]
      rw [hpr]
    · exact analyze_after_cache_reset s now _ ext hreset hbudget

/-- A concrete parsed analysis record (the default test mock's code
analysis response, gpt_analyzer.py lines 92-100). -/
def sampleSignal : SignalRecord :=
  { ai_score := 0.8
    quality_score := 0.7
    originality_score := 0.9
    execution_score := 0.6
    market_value := 0.85
    findings := ["Good AI implementation"]
    recommendations := ["Consider optimizing further"] }

/-- A state whose window budget is exhausted: `max_calls = 2` admitted
calls already made, window not yet due for reset, caching disabled. -/
def s5 : GPTAnalyzerState :=
  { hash_seed := 0
    max_calls := 2
    calls_made := 2
    call_reset_time := 1000
    cache_enabled := false
    cache_ttl := 86400
    cacheA := []
    cacheV := []
    cacheM := []
    cacheO := [] }

/-- C5 witness: at `s5` (counter = budget = 2, window open) the next
call returns the rate-limited fallback and leaves the state unchanged. -/
theorem C5_rate_limiter_witness :
    analyze_code_segment s5 500 "print(1)" "ctx" (ExtOutcome.success sampleSignal)
      = Except.ok (get_fallback_analysis "Rate limit reached", s5) :=
  C5_rate_limiter.2.1 s5 500 "print(1)" "ctx" (ExtOutcome.success sampleSignal)
    rfl (by norm_num [s5]) rfl

/-- A fresh single-entry cache probe hits and returns the content. -/
lemma cache_probe_single {α : Type} (k : String) (m now ttl : ℚ)
    (c : CacheContent α) (h : now - m < ttl) :
    cache_probe true [(k, (m, c))] k now ttl = some c := by
  simp [cache_probe, List.lookup, h]

/-- A fresh cache hit makes `analyze_code_segment` return the cached
record verbatim with the state untouched, whatever the external world
would have answered. -/
lemma analyze_code_segment_hit (s : GPTAnalyzerState) (now : ℚ)
    (code context : String) (ext : ExtOutcome SignalRecord) (r : SignalRecord)
    (h : cache_probe s.cache_enabled s.cacheA
      (analyze_cache_key s.hash_seed code context) now s.cache_ttl
        = some (CacheContent.valid r)) :
    analyze_code_segment s now code context ext = Except.ok (r, s) := by
  simp only [analyze_code_segment]
  rw [h]

/-- Unfolding of `verify_ai_implementation` when the window is open and
the budget admits: the counter is consumed first, then the cache is
consulted. -/
lemma verify_ai_implementation_admitted (s : GPTAnalyzerState) (now : ℚ)
    (code : String) (ext : ExtOutcome VerifyRecord)
    (hwin : now < s.call_reset_time) (hadm : s.calls_made < s.max_calls) :
    verify_ai_implementation s now code ext =
      (match cache_probe s.cache_enabled s.cacheV (verify_cache_key s.hash_seed code)
          now s.cache_ttl with
       | some (CacheContent.valid r) =>
           Except.ok (r, { s with calls_made := s.calls_made + 1 })
       | some CacheContent.unreadable => Except.error "cache read failed"
       | some CacheContent.corrupt =>
           Except.ok (verify_call { s with calls_made := s.calls_made + 1 } now
             (verify_cache_key s.hash_seed code) ext)
       | none =>
           Except.ok (verify_call { s with calls_made := s.calls_made + 1 } now
             (verify_cache_key s.hash_seed code) ext)) := by
  simp only [verify_ai_implementation]
  rw [reset_window_id s now hwin]
  rw [if_neg (not_le.mpr hadm)]

/-- Unfolding of `check_code_originality` when the window is open and
the budget admits. -/
lemma check_code_originality_admitted (s : GPTAnalyzerState) (now : ℚ)
    (code : String) (ext : ExtOutcome OriginalityRecord)
    (hwin : now < s.call_reset_time) (hadm : s.calls_made < s.max_calls) :
    check_code_originality s now code ext =
      (match cache_probe s.cache_enabled s.cacheO
          (originality_cache_key s.hash_seed code) now s.cache_ttl with
       | some (CacheContent.valid r) =>
           Except.ok (r, { s with calls_made := s.calls_made + 1 })
       | some CacheContent.unreadable => Except.error "cache read failed"
       | some CacheContent.corrupt =>
           Except.ok (originality_call { s with calls_made := s.calls_made + 1 } now
             (originality_cache_key s.hash_seed code) ext)
       | none =>
           Except.ok (originality_call { s with calls_made := s.calls_made + 1 } now
             (originality_cache_key s.hash_seed code) ext)) := by
  simp only [check_code_originality]
  rw [reset_window_id s now hwin]
  rw [if_neg (not_le.mpr hadm)]

/-- A concrete parsed verification record. -/
def sampleVerify : VerifyRecord :=
  { is_real_ai := true
    implementation_type := "framework"
    confidence := 0.9
    evidence := ["imports torch and trains a model"]
    suggestions := [] }

/-- A state holding a fresh cached verification for `"net.py"`, with an
untouched budget of 5 and an open window. -/
def s6 : GPTAnalyzerState :=
  { hash_seed := 0
    max_calls := 5
    calls_made := 0
    call_reset_time := 1000
    cache_enabled := true
    cache_ttl := 86400
    cacheA := []
    cacheV := [(verify_cache_key 0 "net.py", (0, CacheContent.valid sampleVerify))]
    cacheM := []
    cacheO := [] }

/-- C6 counterexample: the claim says a fresh cache hit returns the
cached record with no rate-limit consumption for each of the four
operations; on `verify_ai_implementation` a fresh hit (counter 0,
budget 5, fresh entry for the key of `"net.py"`) returns the cached
record but leaves `calls_made = 1`: the shared budget was consumed
before the cache was even consulted. -/
theorem C6_counterexample :
    verify_ai_implementation s6 10 "net.py" (ExtOutcome.callError "service down")
      = Except.ok (sampleVerify, { s6 with calls_made := 1 })
    ∧ s6.calls_made = 0 := by
  refine ⟨?_, rfl⟩
  rw [verify_ai_implementation_admitted s6 10 "net.py" _ (by norm_num [s6])
    (by norm_num [s6])]
  have hpr : cache_probe s6.cache_enabled s6.cacheV
      (verify_cache_key s6.hash_seed "net.py") 10 s6.cache_ttl
        = some (CacheContent.valid sampleVerify) := by
    show cache_probe true [(verify_cache_key 0 "net.py", (0, CacheContent.valid sampleVerify))]
      (verify_cache_key 0 "net.py") 10 86400 = some (CacheContent.valid sampleVerify)
    exact cache_probe_single _ 0 10 86400 _ (by norm_num)
  rw [hpr]
  exact rfl

/-- C6 amended: the four operations do not share one skeleton.
(i) `analyze_code_segment` checks the cache first: a fresh hit returns
the cached record with the whole state (budget included) unchanged and
independent of the external world; (ii) on a miss it runs admission
before the call: with the window open and the budget exhausted it
returns the fallback for every external outcome.  (iii)/(iv)
`verify_ai_implementation` runs admission through the same shared
window first: exhausted budget returns its fallback without consulting
the cache, and an admitted call that then hits the cache still leaves
`calls_made` incremented.  (v)/(vi) `check_code_originality` behaves
like `verify_ai_implementation`.  (vii) `analyze_market_context` never
reads or writes the shared window, and (viii) on a cache miss it
performs the external call even though no admission was made. -/
theorem C6_amended :
    (∀ (s : GPTAnalyzerState) (now : ℚ) (code context : String)
       (ext : ExtOutcome SignalRecord) (r : SignalRecord),
       cache_probe s.cache_enabled s.cacheA
         (analyze_cache_key s.hash_seed code context) now s.cache_ttl
           = some (CacheContent.valid r) →
       analyze_code_segment s now code context ext = Except.ok (r, s))
    ∧ (∀ (s : GPTAnalyzerState) (now : ℚ) (code context : String)
       (ext : ExtOutcome SignalRecord),
       cache_probe s.cache_enabled s.cacheA
         (analyze_cache_key s.hash_seed code context) now s.cache_ttl = none →
       now < s.call_reset_time → s.max_calls ≤ s.calls_made →
       analyze_code_segment s now code context ext =
         Except.ok (get_fallback_analysis "Rate limit reached", s))
    ∧ (∀ (s : GPTAnalyzerState) (now : ℚ) (code : String)
       (ext : ExtOutcome VerifyRecord),
       now < s.call_reset_time → s.max_calls ≤ s.calls_made →
       verify_ai_implementation s now code ext =
         Except.ok (verify_rate_limit_fallback, s))
    ∧ (∀ (s : GPTAnalyzerState) (now : ℚ) (code : String)
       (ext : ExtOutcome VerifyRecord) (r : VerifyRecord),
       now < s.call_reset_time → s.calls_made < s.max_calls →
       cache_probe s.cache_enabled s.cacheV (verify_cache_key s.hash_seed code)
         now s.cache_ttl = some (CacheContent.valid r) →
       verify_ai_implementation s now code ext =
         Except.ok (r, { s with calls_made := s.calls_made + 1 }))
    ∧ (∀ (s : GPTAnalyzerState) (now : ℚ) (code : String)
       (ext : ExtOutcome OriginalityRecord),
       now < s.call_reset_time → s.max_calls ≤ s.calls_made →
       check_code_originality s now code ext =
         Except.ok (originality_rate_limit_fallback, s))
    ∧ (∀ (s : GPTAnalyzerState) (now : ℚ) (code : String)
       (ext : ExtOutcome OriginalityRecord) (r : OriginalityRecord),
       now < s.call_reset_time → s.calls_made < s.max_calls →
       cache_probe s.cache_enabled s.cacheO
         (originality_cache_key s.hash_seed code) now s.cache_ttl
           = some (CacheContent.valid r) →
       check_code_originality s now code ext =
         Except.ok (r, { s with calls_made := s.calls_made + 1 }))
    ∧ (∀ (s : GPTAnalyzerState) (now : ℚ) (project_name repo_url : String)
       (ext : ExtOutcome MarketRecord) (r : MarketRecord) (s' : GPTAnalyzerState),
       analyze_market_context s now project_name repo_url ext = Except.ok (r, s') →
       s'.calls_made = s.calls_made ∧ s'.call_reset_time = s.call_reset_time)
    ∧ (∀ (s : GPTAnalyzerState) (now : ℚ) (project_name repo_url : String)
       (r : MarketRecord),
       cache_probe s.cache_enabled s.cacheM
         (market_cache_key s.hash_seed project_name repo_url) now s.cache_ttl = none →
       analyze_market_context s now project_name repo_url (ExtOutcome.success r) =
         Except.ok (r, { s with cacheM := (cache_put s.cache_enabled s.cacheM
           (market_cache_key s.hash_seed project_name repo_url) now r) })) := by
  refine ⟨?_, ?_, ?_, ?_, ?_, ?_, ?_, ?_⟩
  · exact fun s now code context ext r h =>
      analyze_code_segment_hit s now code context ext r h
  · intro s now code context ext hpr hwin hfull
    simp only [analyze_code_segment]
    rw [hpr]
    have : analyze_after_cache s now (analyze_cache_key s.hash_seed code context) ext
        = (get_fallback_analysis "Rate limit reached", s) := by
      simp only [analyze_after_cache]
      rw [reset_window_id s now hwin]
      rw [if_pos (by omega)]
    rw [this]
  · intro s now code ext hwin hfull
    simp only [verify_ai_implementation]
    rw [reset_window_id s now hwin]
    rw [if_pos hfull]
  · intro s now code ext r hwin hadm hpr
    rw [verify_ai_implementation_admitted s now code ext hwin hadm]
    rw [hpr]
  · intro s now code ext hwin hfull
    simp only [check_code_originality]
    rw [reset_window_id s now hwin]
    rw [if_pos hfull]
  · intro s now code ext r hwin hadm hpr
    rw [check_code_originality_admitted s now code ext hwin hadm]
    rw [hpr]
  · intro s now project_name repo_url ext r s' heq
    simp only [analyze_market_context] at heq
    rcases hpr : cache_probe s.cache_enabled s.cacheM
        (market_cache_key s.hash_seed project_name repo_url) now s.cache_ttl
      with _ | content
    · rw [hpr] at heq
      simp only [Except.ok.injEq, Prod.mk.injEq] at heq
      cases ext <;> simp only [market_call, Prod.mk.injEq] at heq <;>
        rw [← heq.2] <;> exact ⟨rfl, rfl⟩
    · rw [hpr] at heq
      cases content with
      | valid rc =>
          simp only [Except.ok.injEq, Prod.mk.injEq] at heq
          rw [← heq.2]
          exact ⟨rfl, rfl⟩
      | corrupt =>
          simp only [Except.ok.injEq, Prod.mk.injEq] at heq
          cases ext <;> simp only [market_call, Prod.mk.injEq] at heq <;>
            rw [← heq.2] <;> exact ⟨rfl, rfl⟩
      | unreadable => exact absurd heq (by simp)
  · intro s now project_name repo_url r hpr
    simp only [analyze_market_context]
    rw [hpr]
    rfl

/-- A state with budget 0 and a fresh cached verification entry absent:
used to witness the market operation calling out with no budget. -/
def s6m : GPTAnalyzerState :=
  { hash_seed := 0
    max_calls := 0
    calls_made := 0
    call_reset_time := 1000
    cache_enabled := false
    cache_ttl := 86400
    cacheA := []
    cacheV := []
    cacheM := []
    cacheO := [] }

/-- A concrete parsed market record (the default test mock's market
response, gpt_analyzer.py lines 73-89, metrics flattened). -/
def sampleMarket : MarketRecord :=
  { popularity_score := 0.85
    adoption_score := 0.80
    impact_score := 0.75
    popularity_metrics := [("stars", 1200), ("forks", 150), ("watchers", 300)]
    community_metrics := [("contributors", 25), ("issues", 150), ("pull_requests", 200)]
    market_context := "Strong community engagement and adoption"
    recommendations := ["Consider enterprise support options"] }

/-- C6 witness: at concrete states, an admitted `verify_ai_implementation`
call that hits a fresh cache entry still increments the shared counter,
and `analyze_market_context` performs the external call although the
budget is zero. -/
theorem C6_amended_witness :
    verify_ai_implementation s6 10 "net.py" (ExtOutcome.callError "service down")
      = Except.ok (sampleVerify, { s6 with calls_made := 1 })
    ∧ analyze_market_context s6m 10 "proj" "https://x.invalid/p"
        (ExtOutcome.success sampleMarket)
      = Except.ok (sampleMarket, { s6m with cacheM := (cache_put s6m.cache_enabled
          s6m.cacheM (market_cache_key s6m.hash_seed "proj" "https://x.invalid/p")
          10 sampleMarket) }) := by
  constructor
  · have h := C6_amended.2.2.2.1 s6 10 "net.py" (ExtOutcome.callError "service down")
      sampleVerify (by norm_num [s6]) (by norm_num [s6]) (by
        show cache_probe true
          [(verify_cache_key 0 "net.py", (0, CacheContent.valid sampleVerify))]
          (verify_cache_key 0 "net.py") 10 86400 = some (CacheContent.valid sampleVerify)
        exact cache_probe_single _ 0 10 86400 _ (by norm_num))
    exact h
  · exact C6_amended.2.2.2.2.2.2.2 s6m 10 "proj" "https://x.invalid/p" sampleMarket rfl

/-- A state holding a fresh but unreadable cache file for the analyze
key of `("m.py", "ctx")`. -/
def s7 : GPTAnalyzerState :=
  { hash_seed := 0
    max_calls := 5
    calls_made := 0
    call_reset_time := 1000
    cache_enabled := true
    cache_ttl := 86400
    cacheA := [(analyze_cache_key 0 "m.py" "ctx", (0, CacheContent.unreadable))]
    cacheV := []
    cacheM := []
    cacheO := [] }

/-- C7 counterexample: the claim says `analyze_code_segment` never
raises, treating an unreadable cached entry as a miss; on `s7` a fresh
cache file whose read fails with a non-JSON-decode error makes the call
raise (only `json.JSONDecodeError` is caught on the cache-read path). -/
theorem C7_counterexample :
    analyze_code_segment s7 10 "m.py" "ctx" (ExtOutcome.success sampleSignal)
      = Except.error "cache read failed" := by
  simp only [analyze_code_segment]
  have hpr : cache_probe s7.cache_enabled s7.cacheA
      (analyze_cache_key s7.hash_seed "m.py" "ctx") 10 s7.cache_ttl
        = some CacheContent.unreadable := by
    show cache_probe true [(analyze_cache_key 0 "m.py" "ctx", (0, CacheContent.unreadable))]
      (analyze_cache_key 0 "m.py" "ctx") 10 86400 = some CacheContent.unreadable
    exact cache_probe_single _ 0 10 86400 _ (by norm_num)
  rw [hpr]

/-- C7 amended: unless the cache holds a fresh entry whose read fails
with a non-JSON-decode error, `analyze_code_segment` returns a record
for every failure mode (rate-limit exhaustion, external-call failure,
unparseable response); a fresh entry whose body is merely corrupt JSON
is treated as a miss and triggers the full recomputation path. -/
theorem C7_amended (s : GPTAnalyzerState) (now : ℚ) (code context : String)
    (ext : ExtOutcome SignalRecord)
    (h : cache_probe s.cache_enabled s.cacheA
      (analyze_cache_key s.hash_seed code context) now s.cache_ttl
        ≠ some CacheContent.unreadable) :
    (∃ r s', analyze_code_segment s now code context ext = Except.ok (r, s'))
    ∧ (cache_probe s.cache_enabled s.cacheA
        (analyze_cache_key s.hash_seed code context) now s.cache_ttl
          = some CacheContent.corrupt →
       analyze_code_segment s now code context ext =
         Except.ok (analyze_after_cache s now
           (analyze_cache_key s.hash_seed code context) ext)) := by
  rcases hpr : cache_probe s.cache_enabled s.cacheA
      (analyze_cache_key s.hash_seed code context) now s.cache_ttl with _ | content
  · have hstep : analyze_code_segment s now code context ext
        = Except.ok (analyze_after_cache s now
            (analyze_cache_key s.hash_seed code context) ext) := by
      simp only [analyze_code_segment]
      rw [hpr]
    refine ⟨⟨_, _, hstep⟩, fun hc => ?_⟩
    cases hc
  · cases content with
    | valid r =>
        refine ⟨⟨r, s, analyze_code_segment_hit s now code context ext r hpr⟩,
          fun hc => absurd hc (by simp)⟩
    | corrupt =>
        have hstep : analyze_code_segment s now code context ext
            = Except.ok (analyze_after_cache s now
                (analyze_cache_key s.hash_seed code context) ext) := by
          simp only [analyze_code_segment]
          rw [hpr]
        exact ⟨⟨_, _, hstep⟩, fun _ => hstep⟩
    | unreadable => exact absurd hpr h

/-- C7 witness: at `s5` (caching disabled, hence no unreadable entry)
the call goes through and yields a record. -/
theorem C7_amended_witness :
    ∃ r s', analyze_code_segment s5 500 "m.py" "ctx" (ExtOutcome.callError "boom")
      = Except.ok (r, s') :=
  (C7_amended s5 500 "m.py" "ctx" (ExtOutcome.callError "boom") (by
    show cache_probe false [] (analyze_cache_key 0 "m.py" "ctx") 500 86400
      ≠ some CacheContent.unreadable
    simp [cache_probe])).1

/-- C8 counterexample: the claim says every fallback record of the four
operations carries 0.5 in each numeric score field and that the
rate-limited fallback of `analyze_code_segment` has findings
`["Rate limit reached"]`; but `verify_ai_implementation`'s fallbacks
set `confidence` to 0.0, and the rate-limited findings string is
prefixed with `"GPT analysis failed: "`. -/
theorem C8_counterexample :
    (verify_rate_limit_fallback.confidence = 0 ∧ (0 : ℚ) ≠ 0.5)
    ∧ (get_fallback_analysis "Rate limit reached").findings
        = ["GPT analysis failed: Rate limit reached"]
    ∧ ["GPT analysis failed: Rate limit reached"] ≠ (["Rate limit reached"] : List String) := by
  refine ⟨⟨by norm_num [verify_rate_limit_fallback], by norm_num⟩, ?_, by simp⟩
  simp [get_fallback_analysis]

/-- C8 amended: the fallbacks of `analyze_code_segment`,
`analyze_market_context` and `check_code_originality` use exactly 0.5
for every numeric score field; `verify_ai_implementation`'s two
fallbacks use `confidence = 0.0`; and the rate-limited fallback of
`analyze_code_segment` has findings
`["GPT analysis failed: Rate limit reached"]`. -/
theorem C8_amended :
    (∀ msg, (get_fallback_analysis msg).ai_score = 0.5
      ∧ (get_fallback_analysis msg).quality_score = 0.5
      ∧ (get_fallback_analysis msg).originality_score = 0.5
      ∧ (get_fallback_analysis msg).execution_score = 0.5
      ∧ (get_fallback_analysis msg).market_value = 0.5)
    ∧ (get_fallback_analysis "Rate limit reached").findings
        = ["GPT analysis failed: Rate limit reached"]
    ∧ (∀ msg, (market_error_fallback msg).popularity_score = 0.5
      ∧ (market_error_fallback msg).adoption_score = 0.5
      ∧ (market_error_fallback msg).impact_score = 0.5)
    ∧ originality_rate_limit_fallback.originality_score = 0.5
    ∧ originality_error_fallback.originality_score = 0.5
    ∧ verify_rate_limit_fallback.confidence = 0
    ∧ (∀ msg, (verify_error_fallback msg).confidence = 0) := by
  refine ⟨fun msg => ⟨rfl, rfl, rfl, rfl, rfl⟩, ?_, fun msg => ⟨rfl, rfl, rfl⟩,
    rfl, rfl, by norm_num [verify_rate_limit_fallback],
    fun msg => by norm_num [verify_error_fallback]⟩
  simp [get_fallback_analysis]

/-- C9 counterexample: the claim says the cache key is a
collision-resistant digest of the semantic inputs `(input_text,
context)`; but the key hashes the plain concatenation, so the distinct
inputs `("ab", "c")` and `("a", "bc")` share the key. -/
theorem C9_counterexample :
    analyze_cache_key 0 "ab" "c" = analyze_cache_key 0 "a" "bc"
    ∧ ("ab", "c") ≠ (("a", "bc") : String × String) := by
  exact ⟨rfl, by simp⟩

/-- C9 amended: within one process (fixed hash seed) the cache key is a
deterministic function of the operation name and of the concatenation
of the inputs — identical inputs give identical keys regardless of call
order or analyzer state, so a successful call's cached record is found
verbatim by a later call with the same inputs — but the key is not a
collision-resistant digest of the input pair, since any two input
pairs with equal concatenation share one key, and it depends on the
per-process hash seed. -/
theorem C9_amended :
    (∀ (seed : ℕ) (code context code' context' : String),
       code ++ context = code' ++ context' →
       analyze_cache_key seed code context = analyze_cache_key seed code' context')
    ∧ (∀ (s : GPTAnalyzerState) (now now' : ℚ) (code context : String)
       (r : SignalRecord) (ext : ExtOutcome SignalRecord),
       s.cache_enabled = true →
       cache_probe s.cache_enabled s.cacheA
         (analyze_cache_key s.hash_seed code context) now s.cache_ttl = none →
       now < s.call_reset_time → s.calls_made < s.max_calls →
       now' - now < s.cache_ttl →
       ∃ s', analyze_code_segment s now code context (ExtOutcome.success r)
           = Except.ok (r, s')
         ∧ analyze_code_segment s' now' code context ext = Except.ok (r, s')) := by
  constructor
  · intro seed code context code' context' h
    simp only [analyze_cache_key, h]
  · intro s now now' code context r ext hen hpr hwin hadm httl
    refine ⟨{ s with
              calls_made := s.calls_made + 1,
              cacheA := ((analyze_cache_key s.hash_seed code context,
                (now, CacheContent.valid r)) :: s.cacheA) }, ?_, ?_⟩
    · simp only [analyze_code_segment]
      rw [hpr]
      simp only [analyze_after_cache]
      rw [reset_window_id s now hwin]
      rw [if_neg (by omega)]
      simp only [cache_put, hen, if_true]
    · apply analyze_code_segment_hit
      show cache_probe s.cache_enabled
        ((analyze_cache_key s.hash_seed code context, (now, CacheContent.valid r))
          :: s.cacheA)
        (analyze_cache_key s.hash_seed code context) now' s.cache_ttl
          = some (CacheContent.valid r)
      rw [hen]
      simp [cache_probe, List.lookup, httl]

/-- A state with caching enabled and an empty cache directory. -/
def s9 : GPTAnalyzerState :=
  { hash_seed := 0
    max_calls := 5
    calls_made := 0
    call_reset_time := 1000
    cache_enabled := true
    cache_ttl := 86400
    cacheA := []
    cacheV := []
    cacheM := []
    cacheO := [] }

/-- C9 witness: the shared key of `("ab","c")` / `("a","bc")`, and a
concrete write-then-hit round trip through the cache key at `s9`. -/
theorem C9_amended_witness :
    analyze_cache_key 7 "ab" "c" = analyze_cache_key 7 "a" "bc"
    ∧ ∃ s', analyze_code_segment s9 10 "x" "y" (ExtOutcome.success sampleSignal)
        = Except.ok (sampleSignal, s')
      ∧ analyze_code_segment s' 20 "x" "y" (ExtOutcome.callError "down")
        = Except.ok (sampleSignal, s') := by
  constructor
  · exact C9_amended.1 7 "ab" "c" "a" "bc" rfl
  · exact C9_amended.2 s9 10 20 "x" "y" sampleSignal (ExtOutcome.callError "down")
      rfl rfl (by norm_num [s9]) (by norm_num [s9]) (by norm_num [s9])

/-- `reset_window` never touches the cache directory. -/
lemma reset_window_cacheA (s : GPTAnalyzerState) (now : ℚ) :
    (reset_window s now).cacheA = s.cacheA := by
  unfold reset_window
  split <;> rfl

/-- `reset_window` never touches the cache-enabled flag. -/
lemma reset_window_cache_enabled (s : GPTAnalyzerState) (now : ℚ) :
    (reset_window s now).cache_enabled = s.cache_enabled := by
  unfold reset_window
  split <;> rfl

/-- C10: fallback results are never cached by `analyze_code_segment`.
(i) Across every outcome, the analyze cache either stays exactly as it
was (rate-limited path, call failure, unparseable response) or receives
exactly the successfully parsed record — never a fallback.  (ii) Hence
in the two-step scenario the rate-limited call leaves the state
untouched, and the retry with the same inputs once budget is available
performs the real external call and returns its parsed result. -/
theorem C10_no_fallback_caching :
    (∀ (s : GPTAnalyzerState) (now : ℚ) (code context : String)
       (ext : ExtOutcome SignalRecord) (r : SignalRecord) (s' : GPTAnalyzerState),
       analyze_code_segment s now code context ext = Except.ok (r, s') →
       s'.cacheA = s.cacheA
       ∨ ∃ rr, ext = ExtOutcome.success rr ∧ r = rr
           ∧ s'.cacheA = cache_put s.cache_enabled s.cacheA
               (analyze_cache_key s.hash_seed code context) now rr)
    ∧ (∀ (s : GPTAnalyzerState) (now now' : ℚ) (code context : String)
       (r : SignalRecord) (ext : ExtOutcome SignalRecord),
       cache_probe s.cache_enabled s.cacheA
         (analyze_cache_key s.hash_seed code context) now s.cache_ttl = none →
       now < s.call_reset_time → s.max_calls ≤ s.calls_made →
       cache_probe s.cache_enabled s.cacheA
         (analyze_cache_key s.hash_seed code context) now' s.cache_ttl = none →
       s.call_reset_time ≤ now' → 1 ≤ s.max_calls →
       analyze_code_segment s now code context ext
         = Except.ok (get_fallback_analysis "Rate limit reached", s)
       ∧ ∃ s', analyze_code_segment s now' code context (ExtOutcome.success r)
           = Except.ok (r, s')) := by
  constructor
  · intro s now code context ext r s' heq
    simp only [analyze_code_segment] at heq
    rcases hpr : cache_probe s.cache_enabled s.cacheA
        (analyze_cache_key s.hash_seed code context) now s.cache_ttl with _ | content
    case some =>
      rw [hpr] at heq
      cases content with
      | valid rc =>
          simp only [Except.ok.injEq, Prod.mk.injEq] at heq
          rw [← heq.2]
          exact Or.inl rfl
      | unreadable => exact absurd heq (by simp)
      | corrupt =>
          simp only [Except.ok.injEq] at heq
          simp only [analyze_after_cache] at heq
          split at heq
          · rw [Prod.mk.injEq] at heq
            rw [← heq.2]
            exact Or.inl (reset_window_cacheA s now)
          · cases ext with
            | success rr =>
                rw [Prod.mk.injEq] at heq
                refine Or.inr ⟨rr, rfl, heq.1.symm, ?_⟩
                rw [← heq.2]
                show cache_put (reset_window s now).cache_enabled
                  (reset_window s now).cacheA _ now rr = _
                rw [reset_window_cacheA, reset_window_cache_enabled]
            | jsonDecodeError msg =>
                rw [Prod.mk.injEq] at heq
                rw [← heq.2]
                exact Or.inl (reset_window_cacheA s now)
            | processError msg =>
                rw [Prod.mk.injEq] at heq
                rw [← heq.2]
                exact Or.inl (reset_window_cacheA s now)
            | callError msg =>
                rw [Prod.mk.injEq] at heq
                rw [← heq.2]
                exact Or.inl (reset_window_cacheA s now)
    case none =>
      rw [hpr] at heq
      simp only [Except.ok.injEq] at heq
      simp only [analyze_after_cache] at heq
      split at heq
      · rw [Prod.mk.injEq] at heq
        rw [← heq.2]
        exact Or.inl (reset_window_cacheA s now)
      · cases ext with
        | success rr =>
            rw [Prod.mk.injEq] at heq
            refine Or.inr ⟨rr, rfl, heq.1.symm, ?_⟩
            rw [← heq.2]
            show cache_put (reset_window s now).cache_enabled
              (reset_window s now).cacheA _ now rr = _
            rw [reset_window_cacheA, reset_window_cache_enabled]
        | jsonDecodeError msg =>
            rw [Prod.mk.injEq] at heq
            rw [← heq.2]
            exact Or.inl (reset_window_cacheA s now)
        | processError msg =>
            rw [Prod.mk.injEq] at heq
            rw [← heq.2]
            exact Or.inl (reset_window_cacheA s now)
        | callError msg =>
            rw [Prod.mk.injEq] at heq
            rw [← heq.2]
            exact Or.inl (reset_window_cacheA s now)
  · intro s now now' code context r ext hpr hwin hfull hpr' hreset hbudget
    constructor
    · simp only [analyze_code_segment]
      rw [hpr]
      have : analyze_after_cache s now (analyze_cache_key s.hash_seed code context) ext
          = (get_fallback_analysis "Rate limit reached", s) := by
        simp only [analyze_after_cache]
        rw [reset_window_id s now hwin]
        rw [if_pos (by omega)]
      rw [this]
    · have hafter : ∃ s', analyze_after_cache s now'
          (analyze_cache_key s.hash_seed code context) (ExtOutcome.success r)
            = (r, s') := by
        simp only [analyze_after_cache, reset_window, ge_iff_le, hreset, if_true]
        rw [if_neg (by omega)]
        exact ⟨_, rfl⟩
      obtain ⟨s', hs'⟩ := hafter
      refine ⟨s', ?_⟩
      simp only [analyze_code_segment]
      rw [hpr', hs']

/-- C10 witness: the two-step scenario at `s5` — the rate-limited call
returns the fallback and leaves the (empty) cache alone, so the retry
after the window reset performs the external call and returns its
parsed result. -/
theorem C10_no_fallback_caching_witness :
    analyze_code_segment s5 500 "print(1)" "ctx" (ExtOutcome.callError "down")
      = Except.ok (get_fallback_analysis "Rate limit reached", s5)
    ∧ ∃ s', analyze_code_segment s5 2000 "print(1)" "ctx"
        (ExtOutcome.success sampleSignal) = Except.ok (sampleSignal, s') :=
  C10_no_fallback_caching.2 s5 500 2000 "print(1)" "ctx" sampleSignal
    (ExtOutcome.callError "down") rfl (by norm_num [s5]) (by norm_num [s5])
    rfl (by norm_num [s5]) (by norm_num [s5])

end ChronAnalyzer
